import Mathlib

/-!
Verification development for a small Syqlorix web application (`app.py`): a static
weather-alert dashboard page served at the root path, and a proxy endpoint
`/api/pagasa-proxy` that fetches a remote Atom/XML feed and relays it.

The Python source is shallowly embedded: the document tree built by `main_page` becomes
a literal `Node` value; the proxy handler `pagasa_proxy` becomes a function from the
outcome of the (single) outbound fetch to the handler's response, with the `try`/`except`
block modelled by `Except`; byte strings are `List Nat` and `bytes.decode('utf-8')` /
implicit UTF-8 re-encoding are modelled by an explicit strict UTF-8 codec.
-/

/-- Value of an HTML attribute as written in the source: a string, a bare boolean
 (e.g. `crossorigin=True`), or a number. -/
inductive AttrVal where
  | s (v : String)
  | b (v : Bool)
  | n (v : Nat)
deriving DecidableEq, Repr

/-- A node of the literal document tree built by `main_page`: an element with its tag
 name, keyword attributes and positional children, a text child, or a `Comment(...)`. -/
inductive Node where
  | el (tag : String) (attrs : List (String × AttrVal)) (children : List Node)
  | text (t : String)
  | comment (t : String)

/-- An inbound HTTP request as seen by a route handler. Neither handler in the source
 reads any part of it. -/
structure InboundRequest where
  path : String
  method : String
  headers : List (String × String)
  query : List (String × String)
deriving DecidableEq, Repr

/-- An outbound HTTP request as built by `urllib.request.Request(url)` plus
 `add_header`. -/
structure OutboundRequest where
  method : String
  url : String
  headers : List (String × String)
deriving DecidableEq, Repr

/-- Outcome of `urllib.request.urlopen(req)` followed by `response.read()`:
 either the raw body bytes of a successful (2xx) response, or one of the ways the
 call can raise (`URLError` on connection failure, timeout, or `HTTPError`
 carrying the non-success upstream status). -/
inductive FetchOutcome where
  | success (bodyBytes : List Nat)
  | connectionError
  | timeout
  | httpError (status : Nat)
deriving DecidableEq, Repr

/-- UTF-8 encoding of a single Unicode code point, as Python `str.encode('utf-8')`
 produces for one character. -/
def utf8EncodeChar (c : Nat) : List Nat :=
  if c < 0x80 then [c]
  else if c < 0x800 then [0xC0 + c / 64, 0x80 + c % 64]
  else if c < 0x10000 then [0xE0 + c / 4096, 0x80 + c / 64 % 64, 0x80 + c % 64]
  else [0xF0 + c / 262144, 0x80 + c / 4096 % 64, 0x80 + c / 64 % 64, 0x80 + c % 64]

/-- UTF-8 encoding of a sequence of code points. -/
def utf8Encode (cs : List Nat) : List Nat := (cs.map utf8EncodeChar).flatten

/-- Is `b` a UTF-8 continuation byte (`0x80 ≤ b ≤ 0xBF`)? -/
def isCont (b : Nat) : Bool := 0x80 ≤ b && b < 0xC0

/-- Admissible first continuation byte of a three-byte sequence: the `0xE0` and `0xED`
 special cases exclude overlong forms and surrogates, as Python's strict decoder does. -/
def valid3B1 (b0 b1 : Nat) : Bool :=
  if b0 = 0xE0 then decide (0xA0 ≤ b1) && decide (b1 < 0xC0)
  else if b0 = 0xED then decide (0x80 ≤ b1) && decide (b1 < 0xA0)
  else isCont b1

/-- Admissible first continuation byte of a four-byte sequence: the `0xF0` and `0xF4`
 special cases exclude overlong forms and code points above `0x10FFFF`. -/
def valid4B1 (b0 b1 : Nat) : Bool :=
  if b0 = 0xF0 then decide (0x90 ≤ b1) && decide (b1 < 0xC0)
  else if b0 = 0xF4 then decide (0x80 ≤ b1) && decide (b1 < 0x90)
  else isCont b1

/-- Decode one Unicode scalar from the front of a byte sequence (first byte `b0`,
 remaining bytes `rest`), strictly as Python `bytes.decode('utf-8')` does: rejects
 stray continuation bytes and first bytes `0xC0`/`0xC1` (overlong) and `≥ 0xF5`
 (out of range). Returns the code point and the unconsumed bytes, or `none` on a
 malformed sequence. -/
def utf8DecodeStep (b0 : Nat) (rest : List Nat) : Option (Nat × List Nat) :=
  if b0 < 0x80 then some (b0, rest)
  else if b0 < 0xC2 then none
  else if b0 < 0xE0 then
    match rest with
    | b1 :: rest2 =>
      if isCont b1 then some ((b0 - 0xC0) * 64 + (b1 - 0x80), rest2) else none
    | [] => none
  else if b0 < 0xF0 then
    match rest with
    | b1 :: b2 :: rest3 =>
      if valid3B1 b0 b1 then
        if isCont b2 then
          some ((b0 - 0xE0) * 4096 + (b1 - 0x80) * 64 + (b2 - 0x80), rest3)
        else none
      else none
    | _ => none
  else if b0 < 0xF5 then
    match rest with
    | b1 :: b2 :: b3 :: rest4 =>
      if valid4B1 b0 b1 then
        if isCont b2 then
          if isCont b3 then
            some ((b0 - 0xF0) * 262144 + (b1 - 0x80) * 4096 + (b2 - 0x80) * 64 + (b3 - 0x80),
              rest4)
          else none
        else none
      else none
    | _ => none
  else none

/-- Decode a whole byte sequence scalar by scalar. `fuel` only bounds the recursion
 depth for Lean's termination checker; since each step consumes at least one byte,
 any `fuel ≥ bs.length` gives the same result (`utf8DecodeLoop_fuel_irrelevant`). -/
def utf8DecodeLoop : Nat → List Nat → Option (List Nat)
  | _, [] => some []
  | 0, _ :: _ => none
  | fuel + 1, b0 :: rest =>
    match utf8DecodeStep b0 rest with
    | some (c, rest2) => (utf8DecodeLoop fuel rest2).map (fun cs => c :: cs)
    | none => none

/-- Strict UTF-8 decoding of a byte sequence into code points, as Python
 `bytes.decode('utf-8')`; `none` models `UnicodeDecodeError`. -/
def utf8Decode (bs : List Nat) : Option (List Nat) := utf8DecodeLoop bs.length bs


/-- The fixed literal document tree returned by `main_page` in `app.py` (lines 10-642):
 `Syqlorix(head(...), body(...))`, transcribed element by element. Attribute names are
 kept as the Python keyword arguments spell them (`class_`, `for_`, ...). -/
def mainDocument : Node :=
  .el "Syqlorix" [] [
    .el "head" [] [
      .el "meta" [("charset", .s "UTF-8")] [],
      .el "meta" [("name", .s "viewport"), ("content", .s "width=device-width, initial-scale=1.0")] [],
      .el "meta" [("name", .s "description"), ("content", .s "Real-time PAGASA weather alerts and flood advisories for the Philippines. Stay informed about typhoons, floods, and severe weather conditions.")] [],
      .el "meta" [("name", .s "keywords"), ("content", .s "PAGASA, weather alerts, Philippines, typhoon, flood advisory, disaster preparedness")] [],
      .el "meta" [("name", .s "author"), ("content", .s "Bayanihan Weather Alert System")] [],
      .comment "Open Graph Meta Tags",
      .el "meta" [("property", .s "og:title"), ("content", .s "Bayanihan Weather Alert Dashboard")] [],
      .el "meta" [("property", .s "og:description"), ("content", .s "Real-time PAGASA weather alerts and flood advisories for the Philippines")] [],
      .el "meta" [("property", .s "og:type"), ("content", .s "website")] [],
      .el "meta" [("property", .s "og:image"), ("content", .s "https://via.placeholder.com/1200x630/1e40af/ffffff?text=Bayanihan+Weather+Alert")] [],
      .comment "Twitter Card Meta Tags",
      .el "meta" [("name", .s "twitter:card"), ("content", .s "summary_large_image")] [],
      .el "meta" [("name", .s "twitter:title"), ("content", .s "Bayanihan Weather Alert Dashboard")] [],
      .el "meta" [("name", .s "twitter:description"), ("content", .s "Real-time PAGASA weather alerts and flood advisories for the Philippines")] [],
      .el "meta" [("name", .s "twitter:image"), ("content", .s "https://via.placeholder.com/1200x630/1e40af/ffffff?text=Bayanihan+Weather+Alert")] [],
      .el "title" [] [
        .text "Bayanihan Weather Alert Dashboard | Real-time PAGASA Alerts"],
      .comment "Favicon",
      .el "link" [("rel", .s "icon"), ("type", .s "image/svg+xml"), ("href", .s "data:image/svg+xml,<svg xmlns=\x27http://www.w3.org/2000/svg\x27 viewBox=\x270 0 100 100\x27><text y=\x27.9em\x27 font-size=\x2790\x27>🌦️</text></svg>")] [],
      .comment "Fonts",
      .el "link" [("rel", .s "preconnect"), ("href", .s "https://fonts.googleapis.com")] [],
      .el "link" [("rel", .s "preconnect"), ("href", .s "https://fonts.gstatic.com"), ("crossorigin", .b true)] [],
      .el "link" [("href", .s "https://fonts.googleapis.com/css2?family=Inter:wght@400;500;600;700&display=swap"), ("rel", .s "stylesheet")] [],
      .comment "Icons",
      .el "link" [("rel", .s "stylesheet"), ("href", .s "https://cdnjs.cloudflare.com/ajax/libs/font-awesome/6.5.0/css/all.min.css")] [],
      .comment "Styles",
      .el "link" [("rel", .s "stylesheet"), ("href", .s "styles.css")] [],
      .comment "LeafletJS Map CSS",
      .el "link" [("rel", .s "stylesheet"), ("href", .s "https://unpkg.com/leaflet@1.9.4/dist/leaflet.css"), ("integrity", .s "sha256-p4NxAoJBhIIN+hmNHrzRCf9tD/miZyoHS5obTRR9BMY="), ("crossorigin", .b true)] [],
      .comment "Progressive Web App Manifest",
      .el "link" [("rel", .s "manifest"), ("href", .s "manifest.json")] [],
      .el "meta" [("name", .s "theme-color"), ("content", .s "#1e40af")] []],
    .el "body" [] [
      .comment "Skip to Content Link for Accessibility",
      .el "a" [("href", .s "#main-content"), ("class_", .s "skip-link")] [
        .text "Skip to main content"],
      .comment "Loading Screen",
      .el "div" [("id", .s "loading-screen"), ("class_", .s "loading-screen")] [
        .el "div" [("class_", .s "loading-content")] [
          .el "div" [("class_", .s "loading-logo")] [
            .text "🌦️"],
          .el "h1" [] [
            .text "Bayanihan Weather Alert"],
          .el "div" [("class_", .s "loading-spinner")] [],
          .el "p" [] [
            .text "Loading weather alerts..."]]],
      .comment "Header Section",
      .el "header" [("class_", .s "header"), ("role", .s "banner")] [
        .el "div" [("class_", .s "container")] [
          .el "div" [("class_", .s "header-content")] [
            .el "div" [("class_", .s "logo-section")] [
              .el "div" [("class_", .s "logo-img")] [
                .text "🌦️"],
              .el "div" [("class_", .s "logo-text")] [
                .el "h1" [("class_", .s "site-title")] [
                  .text "Bayanihan Weather Alert"],
                .el "p" [("class_", .s "site-subtitle")] [
                  .text "Real-time PAGASA Dashboard"]]],
            .el "div" [("class_", .s "header-status")] [
              .el "div" [("class_", .s "status-indicator")] [
                .el "span" [("class_", .s "status-dot"), ("id", .s "connection-status")] [],
                .el "span" [("class_", .s "status-text"), ("id", .s "status-text")] [
                  .text "Connecting..."]],
              .el "div" [("class_", .s "last-update")] [
                .el "span" [("class_", .s "update-label")] [
                  .text "Last Update:"],
                .el "time" [("id", .s "last-update-time"), ("datetime", .b true)] [
                  .text "--:--"]]],
            .el "div" [("class_", .s "theme-switch-wrapper")] [
              .el "label" [("class_", .s "theme-switch"), ("for_", .s "dark-mode-toggle")] [
                .el "input_" [("type", .s "checkbox"), ("id", .s "dark-mode-toggle")] [],
                .el "span" [("class_", .s "slider round")] []]],
            .el "nav" [("class_", .s "main-nav"), ("role", .s "navigation"), ("aria_label", .s "Main navigation")] [
              .el "button" [("class_", .s "nav-toggle"), ("aria_expanded", .s "false"), ("aria_controls", .s "nav-menu"), ("id", .s "nav-toggle")] [
                .el "span" [("class_", .s "hamburger")] [],
                .el "span" [("class_", .s "sr-only")] [
                  .text "Toggle navigation menu"]],
              .el "ul" [("class_", .s "nav-menu"), ("id", .s "nav-menu")] [
                .el "li" [] [
                  .el "a" [("href", .s "#dashboard"), ("class_", .s "nav-link active")] [
                    .text "Dashboard"]],
                .el "li" [] [
                  .el "a" [("href", .s "#alerts"), ("class_", .s "nav-link")] [
                    .text "Active Alerts"]],
                .el "li" [] [
                  .el "a" [("href", .s "#map"), ("class_", .s "nav-link")] [
                    .text "Map View"]],
                .el "li" [] [
                  .el "a" [("href", .s "#analytics"), ("class_", .s "nav-link")] [
                    .text "Analytics"]]]]]]],
      .comment "Main Content",
      .el "main" [("id", .s "main-content"), ("class_", .s "main-content"), ("role", .s "main")] [
        .comment "Alert Banner for Critical Alerts",
        .el "div" [("class_", .s "alert-banner"), ("id", .s "critical-banner"), ("role", .s "alert"), ("aria_live", .s "assertive"), ("style", .s "display: none;")] [
          .el "div" [("class_", .s "container")] [
            .el "div" [("class_", .s "banner-content")] [
              .el "div" [("class_", .s "banner-icon")] [
                .text "⚠️"],
              .el "div" [("class_", .s "banner-text")] [
                .el "strong" [] [
                  .text "Critical Weather Alert:"],
                .el "span" [("id", .s "critical-message")] [
                  .text "Severe weather conditions detected in your area."]],
              .el "button" [("class_", .s "banner-close"), ("aria_label", .s "Close alert banner"), ("id", .s "banner-close")] [
                .text "×"]]]],
        .comment "Dashboard Section",
        .el "section" [("id", .s "dashboard"), ("class_", .s "dashboard-section")] [
          .el "div" [("class_", .s "container")] [
            .el "div" [("class_", .s "section-header")] [
              .el "h2" [("class_", .s "section-title")] [
                .text "Weather Alert Dashboard"],
              .el "p" [("class_", .s "section-description")] [
                .text "Real-time monitoring of PAGASA weather alerts and flood advisories across the Philippines"]],
            .comment "Quick Stats",
            .el "div" [("class_", .s "stats-grid")] [
              .comment "ADD THIS NEW CARD",
              .el "div" [("class_", .s "stat-card")] [
                .el "div" [("class_", .s "stat-icon total")] [
                  .el "i" [("class_", .s "fas fa-bell")] []],
                .el "div" [("class_", .s "stat-content")] [
                  .el "div" [("class_", .s "stat-number"), ("id", .s "total-count")] [
                    .text "0"],
                  .el "div" [("class_", .s "stat-label")] [
                    .text "Total Active Alerts"]]],
              .el "div" [("class_", .s "stat-card")] [
                .el "div" [("class_", .s "stat-icon severe")] [
                  .el "i" [("class_", .s "fas fa-exclamation-triangle")] []],
                .el "div" [("class_", .s "stat-content")] [
                  .el "div" [("class_", .s "stat-number"), ("id", .s "severe-count")] [
                    .text "0"],
                  .el "div" [("class_", .s "stat-label")] [
                    .text "Severe Alerts"]]],
              .el "div" [("class_", .s "stat-card")] [
                .el "div" [("class_", .s "stat-icon moderate")] [
                  .el "i" [("class_", .s "fas fa-exclamation-circle")] []],
                .el "div" [("class_", .s "stat-content")] [
                  .el "div" [("class_", .s "stat-number"), ("id", .s "moderate-count")] [
                    .text "0"],
                  .el "div" [("class_", .s "stat-label")] [
                    .text "Moderate Alerts"]]],
              .el "div" [("class_", .s "stat-card")] [
                .el "div" [("class_", .s "stat-icon minor")] [
                  .el "i" [("class_", .s "fas fa-info-circle")] []],
                .el "div" [("class_", .s "stat-content")] [
                  .el "div" [("class_", .s "stat-number"), ("id", .s "minor-count")] [
                    .text "0"],
                  .el "div" [("class_", .s "stat-label")] [
                    .text "Minor Alerts"]]],
              .el "div" [("class_", .s "stat-card")] [
                .el "div" [("class_", .s "stat-icon regions")] [
                  .el "i" [("class_", .s "fas fa-map-marked-alt")] []],
                .el "div" [("class_", .s "stat-content")] [
                  .el "div" [("class_", .s "stat-number"), ("id", .s "regions-count")] [
                    .text "0"],
                  .el "div" [("class_", .s "stat-label")] [
                    .text "Affected Regions"]]]],
            .comment "Filter Controls",
            .el "div" [("class_", .s "filter-section")] [
              .el "div" [("class_", .s "filter-group")] [
                .el "label" [("for_", .s "region-filter"), ("class_", .s "filter-label")] [
                  .text "Filter by Region:"],
                .el "select" [("id", .s "region-filter"), ("class_", .s "filter-select")] [
                  .el "option" [("value", .b true)] [
                    .text "All Regions"],
                  .el "option" [("value", .s "ncr")] [
                    .text "National Capital Region (NCR)"],
                  .el "option" [("value", .s "car")] [
                    .text "Cordillera Administrative Region (CAR)"],
                  .el "option" [("value", .s "region1")] [
                    .text "Region 1 (Ilocos Region)"],
                  .el "option" [("value", .s "region2")] [
                    .text "Region 2 (Cagayan Valley)"],
                  .el "option" [("value", .s "region3")] [
                    .text "Region 3 (Central Luzon)"],
                  .el "option" [("value", .s "region4a")] [
                    .text "Region 4-A (CALABARZON)"],
                  .el "option" [("value", .s "region4b")] [
                    .text "Region 4-B (MIMAROPA)"],
                  .el "option" [("value", .s "region5")] [
                    .text "Region 5 (Bicol Region)"],
                  .el "option" [("value", .s "region6")] [
                    .text "Region 6 (Western Visayas)"],
                  .el "option" [("value", .s "region7")] [
                    .text "Region 7 (Central Visayas)"],
                  .el "option" [("value", .s "region8")] [
                    .text "Region 8 (Eastern Visayas)"],
                  .el "option" [("value", .s "region9")] [
                    .text "Region 9 (Zamboanga Peninsula)"],
                  .el "option" [("value", .s "region10")] [
                    .text "Region 10 (Northern Mindanao)"],
                  .el "option" [("value", .s "region11")] [
                    .text "Region 11 (Davao Region)"],
                  .el "option" [("value", .s "region12")] [
                    .text "Region 12 (SOCCSKSARGEN)"],
                  .el "option" [("value", .s "region13")] [
                    .text "Region 13 (Caraga)"],
                  .el "option" [("value", .s "barmm")] [
                    .text "BARMM (Bangsamoro Autonomous Region in Muslim Mindanao)"]]],
              .el "div" [("class_", .s "filter-group")] [
                .el "label" [("for_", .s "severity-filter"), ("class_", .s "filter-label")] [
                  .text "Filter by Severity:"],
                .el "select" [("id", .s "severity-filter"), ("class_", .s "filter-select")] [
                  .el "option" [("value", .b true)] [
                    .text "All Severities"],
                  .el "option" [("value", .s "extreme")] [
                    .text "Extreme"],
                  .el "option" [("value", .s "severe")] [
                    .text "Severe"],
                  .el "option" [("value", .s "moderate")] [
                    .text "Moderate"],
                  .el "option" [("value", .s "minor")] [
                    .text "Minor"]]],
              .el "div" [("class_", .s "filter-group")] [
                .el "label" [("for_", .s "alert-search"), ("class_", .s "filter-label")] [
                  .text "Search Alerts:"],
                .el "input_" [("type", .s "search"), ("id", .s "alert-search"), ("class_", .s "filter-input"), ("placeholder", .s "Search by location or alert type...")] []],
              .el "button" [("class_", .s "filter-reset"), ("id", .s "reset-filters")] [
                .el "i" [("class_", .s "fas fa-undo")] [],
                .text "Reset Filters"]]]],
        .comment "Active Alerts Section",
        .el "section" [("id", .s "alerts"), ("class_", .s "alerts-section")] [
          .el "div" [("class_", .s "container")] [
            .el "div" [("class_", .s "section-header")] [
              .el "h2" [("class_", .s "section-title")] [
                .text "Active Weather Alerts"],
              .el "div" [("class_", .s "section-actions")] [
                .el "button" [("class_", .s "refresh-btn"), ("id", .s "refresh-alerts"), ("aria_label", .s "Refresh alerts")] [
                  .el "i" [("class_", .s "fas fa-sync-alt refresh-icon")] [],
                  .text "Refresh"],
                .el "div" [("class_", .s "view-toggle")] [
                  .el "button" [("class_", .s "view-btn active"), ("data_view", .s "grid"), ("aria_label", .s "Grid view")] [
                    .el "i" [("class_", .s "fas fa-th")] []],
                  .el "button" [("class_", .s "view-btn"), ("data_view", .s "list"), ("aria_label", .s "List view")] [
                    .el "i" [("class_", .s "fas fa-list")] []]]]],
            .comment "Loading State",
            .el "div" [("class_", .s "loading-state"), ("id", .s "alerts-loading")] [
              .el "div" [("class_", .s "loading-spinner")] [],
              .el "p" [] [
                .text "Loading weather alerts..."]],
            .comment "No Alerts State",
            .el "div" [("class_", .s "no-alerts-state"), ("id", .s "no-alerts"), ("style", .s "display: none;")] [
              .el "div" [("class_", .s "no-alerts-icon")] [
                .text "☀️"],
              .el "h3" [] [
                .text "No Active Weather Alerts"],
              .el "p" [] [
                .text "There are currently no active weather alerts for the selected filters. Stay safe and check back regularly for updates."]],
            .comment "Alerts Grid",
            .el "div" [("class_", .s "alerts-grid"), ("id", .s "alerts-container")] [
              .comment "Alert cards will be dynamically inserted here"]]],
        .comment "Map Section",
        .el "section" [("id", .s "map"), ("class_", .s "map-section")] [
          .el "div" [("class_", .s "container")] [
            .el "div" [("class_", .s "section-header")] [
              .el "h2" [("class_", .s "section-title")] [
                .text "Interactive Weather Map"],
              .el "p" [("class_", .s "section-description")] [
                .text "Geographic visualization of active weather alerts across the Philippines"]],
            .el "div" [("class_", .s "map-container")] [
              .el "div" [("class_", .s "map-placeholder"), ("id", .s "weather-map")] [
                .el "div" [("class_", .s "map-loading")] [
                  .el "div" [("class_", .s "loading-spinner")] [],
                  .el "p" [] [
                    .text "Loading interactive map..."]]],
              .el "div" [("class_", .s "map-legend")] [
                .el "h3" [("class_", .s "legend-title")] [
                  .text "Alert Severity Legend"],
                .el "div" [("class_", .s "legend-items")] [
                  .el "div" [("class_", .s "legend-item")] [
                    .el "span" [("class_", .s "legend-color extreme")] [],
                    .el "span" [("class_", .s "legend-label")] [
                      .text "Extreme"]],
                  .el "div" [("class_", .s "legend-item")] [
                    .el "span" [("class_", .s "legend-color severe")] [],
                    .el "span" [("class_", .s "legend-label")] [
                      .text "Severe"]],
                  .el "div" [("class_", .s "legend-item")] [
                    .el "span" [("class_", .s "legend-color moderate")] [],
                    .el "span" [("class_", .s "legend-label")] [
                      .text "Moderate"]],
                  .el "div" [("class_", .s "legend-item")] [
                    .el "span" [("class_", .s "legend-color minor")] [],
                    .el "span" [("class_", .s "legend-label")] [
                      .text "Minor"]]]]]]],
        .comment "Analytics Section",
        .el "section" [("id", .s "analytics"), ("class_", .s "analytics-section")] [
          .el "div" [("class_", .s "container")] [
            .el "div" [("class_", .s "section-header")] [
              .el "h2" [("class_", .s "section-title")] [
                .text "Weather Analytics"],
              .el "p" [("class_", .s "section-description")] [
                .text "Statistical analysis and trends of weather alerts"]],
            .el "div" [("class_", .s "analytics-grid")] [
              .el "div" [("class_", .s "chart-container")] [
                .el "h3" [("class_", .s "chart-title")] [
                  .text "Alert Frequency by Region"],
                .el "div" [("class_", .s "chart-placeholder"), ("id", .s "region-chart")] [
                  .el "canvas" [("id", .s "region-canvas"), ("width", .s "400"), ("height", .s "300")] []]],
              .el "div" [("class_", .s "chart-container")] [
                .el "h3" [("class_", .s "chart-title")] [
                  .text "Severity Distribution"],
                .el "div" [("class_", .s "chart-placeholder"), ("id", .s "severity-chart")] [
                  .el "canvas" [("id", .s "severity-canvas"), ("width", .s "400"), ("height", .s "300")] []]],
              .el "div" [("class_", .s "chart-container")] [
                .el "h3" [("class_", .s "chart-title")] [
                  .text "Alert Timeline (24 Hours)"],
                .el "div" [("class_", .s "chart-placeholder"), ("id", .s "timeline-chart")] [
                  .el "canvas" [("id", .s "timeline-canvas"), ("width", .s "400"), ("height", .s "300")] []]],
              .el "div" [("class_", .s "chart-container")] [
                .el "h3" [("class_", .s "chart-title")] [
                  .text "Weather Pattern Analysis"],
                .el "div" [("class_", .s "chart-placeholder"), ("id", .s "pattern-chart")] [
                  .el "canvas" [("id", .s "pattern-canvas"), ("width", .s "400"), ("height", .s "300")] []]]]]]],
      .comment "Alert Detail Modal",
      .el "div" [("class_", .s "modal"), ("id", .s "alert-modal"), ("aria_hidden", .s "true"), ("role", .s "dialog"), ("aria_labelledby", .s "modal-title")] [
        .el "div" [("class_", .s "modal-overlay"), ("id", .s "modal-overlay")] [],
        .el "div" [("class_", .s "modal-content")] [
          .el "div" [("class_", .s "modal-header")] [
            .el "h2" [("class_", .s "modal-title"), ("id", .s "modal-title")] [
              .text "Alert Details"],
            .el "button" [("class_", .s "modal-close"), ("id", .s "modal-close"), ("aria_label", .s "Close modal")] [
              .el "i" [("class_", .s "fas fa-times")] []]],
          .el "div" [("class_", .s "modal-body"), ("id", .s "modal-body")] [
            .comment "Alert details will be dynamically inserted here"],
          .el "div" [("class_", .s "modal-footer")] [
            .el "a" [("class_", .s "btn btn-secondary"), ("id", .s "modal-pagasa-link"), ("target", .s "_blank")] [
              .el "i" [("class_", .s "fas fa-external-link-alt")] [],
              .text "View on PAGASA"],
            .el "button" [("class_", .s "btn btn-primary"), ("id", .s "modal-close-btn")] [
              .text "Close"]]]],
      .comment "Footer",
      .el "footer" [("class_", .s "footer"), ("role", .s "contentinfo")] [
        .el "div" [("class_", .s "container")] [
          .el "div" [("class_", .s "footer-content")] [
            .el "div" [("class_", .s "footer-section")] [
              .el "h3" [] [
                .text "Bayanihan Weather Alert"],
              .el "p" [] [
                .text "Real-time weather alerts and flood advisories from PAGASA to keep Filipino communities safe and informed."],
              .el "div" [("class_", .s "footer-social")] [
                .el "a" [("href", .s "#"), ("class_", .s "social-link"), ("aria_label", .s "Facebook")] [
                  .el "i" [("class_", .s "fab fa-facebook")] []],
                .el "a" [("href", .s "#"), ("class_", .s "social-link"), ("aria_label", .s "Twitter")] [
                  .el "i" [("class_", .s "fab fa-twitter")] []],
                .el "a" [("href", .s "#"), ("class_", .s "social-link"), ("aria_label", .s "Instagram")] [
                  .el "i" [("class_", .s "fab fa-instagram")] []]]],
            .el "div" [("class_", .s "footer-section")] [
              .el "h4" [] [
                .text "Quick Links"],
              .el "ul" [("class_", .s "footer-links")] [
                .el "li" [] [
                  .el "a" [("href", .s "#dashboard")] [
                    .text "Dashboard"]],
                .el "li" [] [
                  .el "a" [("href", .s "#alerts")] [
                    .text "Active Alerts"]],
                .el "li" [] [
                  .el "a" [("href", .s "#map")] [
                    .text "Map View"]],
                .el "li" [] [
                  .el "a" [("href", .s "#analytics")] [
                    .text "Analytics"]]]],
            .el "div" [("class_", .s "footer-section")] [
              .el "h4" [] [
                .text "Resources"],
              .el "ul" [("class_", .s "footer-links")] [
                .el "li" [] [
                  .el "a" [("href", .s "https://www.pagasa.dost.gov.ph/"), ("target", .s "_blank")] [
                    .text "PAGASA Official"]],
                .el "li" [] [
                  .el "a" [("href", .s "https://www.ndrrmc.gov.ph/"), ("target", .s "_blank")] [
                    .text "NDRRMC"]],
                .el "li" [] [
                  .el "a" [("href", .s "#"), ("target", .s "_blank")] [
                    .text "Emergency Contacts"]],
                .el "li" [] [
                  .el "a" [("href", .s "#"), ("target", .s "_blank")] [
                    .text "Safety Tips"]]]],
            .el "div" [("class_", .s "footer-section")] [
              .el "h4" [] [
                .text "About"],
              .el "ul" [("class_", .s "footer-links")] [
                .el "li" [] [
                  .el "a" [("href", .s "#")] [
                    .text "About Us"]],
                .el "li" [] [
                  .el "a" [("href", .s "#")] [
                    .text "Privacy Policy"]],
                .el "li" [] [
                  .el "a" [("href", .s "#")] [
                    .text "Terms of Service"]],
                .el "li" [] [
                  .el "a" [("href", .s "#")] [
                    .text "Contact"]]]]],
          .el "div" [("class_", .s "footer-bottom")] [
            .el "p" [] [
              .text "© 2025 Bayanihan Weather Alert. Data provided by PAGASA."],
            .el "p" [] [
              .text "Built with ❤️ for Filipino communities"]]]],
      .comment "LeafletJS Map Script",
      .comment "Chart.js Library",
      .comment "LeafletJS Map Script",
      .comment "Your Application Scripts",
      .comment "Back to Top Button",
      .el "button" [("id", .s "back-to-top"), ("class_", .s "btn btn-primary"), ("title", .s "Go to top")] [
        .el "i" [("class_", .s "fas fa-arrow-up")] []],
      .el "script" [("src", .s "https://unpkg.com/leaflet@1.9.4/dist/leaflet.js")] [],
      .el "script" [("src", .s "https://cdn.jsdelivr.net/npm/chart.js")] [],
      .el "script" [("src", .s "https://unpkg.com/leaflet@1.9.4/dist/leaflet.js")] [],
      .el "script" [("src", .s "script.js")] []]]

set_option linter.unusedVariables false in
/-- The `main_page` route handler (`@doc.route('/')`): ignores its `request` argument
 entirely and returns the fixed literal document. Its construction is a pure literal,
 so in the source it can neither branch nor fail. -/
def main_page (request : InboundRequest) : Node := mainDocument

/-- Body of an HTTP response as a route handler (or the framework around it) produces
 it: a text body as its bytes on the wire, a Python dict to be rendered as JSON, or a
 whole document object. -/
inductive RespBody where
  | textBytes (bs : List Nat)
  | jsonObject (fields : List (String × String))
  | document (d : Node)

/-- A route handler's response: body, status, and — when the handler returns a
 3-tuple — an explicit headers component; `headers = none` models a 2-tuple return
 with no headers component at all. -/
structure Response where
  body : RespBody
  status : Nat
  headers : Option (List (String × String))

/-- Modelled from the spec: the host framework (not part of this repository) serves a
 document returned by a route handler with status 200 and content type `text/html`. -/
def serveDocument (d : Node) : Response :=
  { body := .document d, status := 200, headers := some [("Content-Type", "text/html")] }

/-- The full root-path behaviour: the framework serving (`serveDocument`, modelled from
 the spec) applied to the handler `main_page` from the source. -/
def serve_root (request : InboundRequest) : Response := serveDocument (main_page request)

/-- The fixed upstream URL of the proxy handler (`app.py` line 651). -/
def pagasaURL : String := "https://publicalert.pagasa.dost.gov.ph/feeds/"

/-- The fixed desktop-browser user-agent header value (`app.py` line 655). -/
def pagasaUserAgent : String :=
  "Mozilla/5.0 (Windows NT 10.0; Win64; x64) AppleWebKit/537.36"

/-- The single outbound request the proxy handler builds:
 `urllib.request.Request(url)` plus `req.add_header('User-Agent', ...)`, fetched
 by `urllib.request.urlopen` with the GET method. -/
def pagasaRequest : OutboundRequest :=
  { method := "GET", url := pagasaURL, headers := [("User-Agent", pagasaUserAgent)] }

/-- The exceptions that can arise inside the proxy handler's `try` block:
 `urllib.error.URLError` (connection failure or timeout), `urllib.error.HTTPError`
 (non-success upstream status), and `UnicodeDecodeError` from `.decode('utf-8')`. -/
inductive ProxyExn where
  | urlError
  | httpStatusError (status : Nat)
  | unicodeDecodeError
deriving DecidableEq, Repr

/-- The body of the proxy handler's `try` block after the fetch returned: reading the
 body and `xml_data = response.read().decode('utf-8')` (`app.py` lines 657-658).
 `Except.error` models an exception propagating to the `except` clause. -/
def pagasaTry (outcome : FetchOutcome) : Except ProxyExn (List Nat) :=
  match outcome with
  | .success bodyBytes =>
    match utf8Decode bodyBytes with
    | some codepoints => .ok codepoints
    | none => .error .unicodeDecodeError
  | .connectionError => .error .urlError
  | .timeout => .error .urlError
  | .httpError status => .error (.httpStatusError status)

/-- The proxy handler's success return (`app.py` line 661):
 `return xml_data, 200, \x7b'Content-Type': 'application/atom+xml'\x7d` — the returned
 string `xml_data` goes onto the wire UTF-8 encoded. -/
def successResponse (xmlData : List Nat) : Response :=
  { body := .textBytes (utf8Encode xmlData), status := 200,
    headers := some [("Content-Type", "application/atom+xml")] }

/-- The proxy handler's failure return (`app.py` line 665):
 `return \x7b"error": "Failed to fetch PAGASA data"\x7d, 500` — a 2-tuple, so no
 headers component. -/
def errorResponse : Response :=
  { body := .jsonObject [("error", "Failed to fetch PAGASA data")], status := 500,
    headers := none }

set_option linter.unusedVariables false in
/-- The `pagasa_proxy` route handler (`app.py` lines 645-665). The outbound transport
 is abstracted as `fetch`; the handler builds the single fixed request, calls `fetch`
 on it exactly once, and the `try`/`except` around the fetch-read-decode pipeline is
 the `match` on `pagasaTry`. Besides the response, the returned list records every
 outbound request issued, in order. The inbound `request` is never read. -/
def pagasa_proxy (request : InboundRequest) (fetch : OutboundRequest → FetchOutcome) :
    Response × List OutboundRequest :=
  let req := pagasaRequest
  match pagasaTry (fetch req) with
  | .ok xmlData => (successResponse xmlData, [req])
  | .error _ => (errorResponse, [req])

/-- A registered route handler of the application. -/
inductive Handler where
  | mainPage
  | pagasaProxy
deriving DecidableEq, Repr

/-- One `@doc.route(path)` registration appends a (path, handler) binding. -/
def registerRoute (table : List (String × Handler)) (path : String) (h : Handler) :
    List (String × Handler) :=
  table ++ [(path, h)]

/-- The route table as built once at module load: `@doc.route('/')` (line 8) then
 `@doc.route('/api/pagasa-proxy')` (line 645). Nothing in the source mutates it
 afterwards; in this embedding it is a constant. -/
def routeTable : List (String × Handler) :=
  registerRoute (registerRoute [] "/" .mainPage) "/api/pagasa-proxy" .pagasaProxy

/-- The development proxy mapping registered by `doc.proxy(...)` (`app.py` line 6):
 a path-to-upstream-URL mapping, distinct from the route table's path-to-handler
 bindings. -/
def devProxyMap : List (String × String) :=
  [("/api/pagasa-proxy", "https://publicalert.pagasa.dost.gov.ph/feeds")]

theorem utf8Encode_nil : utf8Encode [] = [] := rfl

theorem utf8Encode_cons (c : Nat) (cs : List Nat) :
    utf8Encode (c :: cs) = utf8EncodeChar c ++ utf8Encode cs := by
  simp [utf8Encode]

theorem utf8EncodeChar_one (b0 : Nat) (h : b0 < 0x80) : utf8EncodeChar b0 = [b0] := by
  unfold utf8EncodeChar
  rw [if_pos h]

theorem utf8EncodeChar_two (b0 b1 : Nat) (h0 : 0xC2 ≤ b0) (h0h : b0 < 0xE0)
    (hc : isCont b1 = true) :
    utf8EncodeChar ((b0 - 0xC0) * 64 + (b1 - 0x80)) = [b0, b1] := by
  simp only [isCont, Bool.and_eq_true, decide_eq_true_eq] at hc
  unfold utf8EncodeChar
  rw [if_neg (by omega), if_pos (by omega)]
  simp only [List.cons.injEq, and_true]
  omega

theorem utf8EncodeChar_three (b0 b1 b2 : Nat) (h0 : 0xE0 ≤ b0) (h0h : b0 < 0xF0)
    (hv : valid3B1 b0 b1 = true) (hc : isCont b2 = true) :
    utf8EncodeChar ((b0 - 0xE0) * 4096 + (b1 - 0x80) * 64 + (b2 - 0x80)) = [b0, b1, b2] := by
  unfold valid3B1 at hv
  simp only [isCont, Bool.and_eq_true, decide_eq_true_eq] at hc
  have hb1 : (b0 = 0xE0 ∧ 0xA0 ≤ b1 ∧ b1 < 0xC0) ∨
      (b0 = 0xED ∧ 0x80 ≤ b1 ∧ b1 < 0xA0) ∨
      (¬b0 = 0xE0 ∧ ¬b0 = 0xED ∧ 0x80 ≤ b1 ∧ b1 < 0xC0) := by
    split_ifs at hv with he hd <;>
      simp only [isCont, Bool.and_eq_true, decide_eq_true_eq] at hv <;> tauto
  unfold utf8EncodeChar
  rw [if_neg (by omega), if_neg (by omega), if_pos (by omega)]
  simp only [List.cons.injEq, and_true]
  omega

theorem utf8EncodeChar_four (b0 b1 b2 b3 : Nat) (h0 : 0xF0 ≤ b0) (h0h : b0 < 0xF5)
    (hv : valid4B1 b0 b1 = true) (hc2 : isCont b2 = true) (hc3 : isCont b3 = true) :
    utf8EncodeChar ((b0 - 0xF0) * 262144 + (b1 - 0x80) * 4096 + (b2 - 0x80) * 64 + (b3 - 0x80)) =
      [b0, b1, b2, b3] := by
  unfold valid4B1 at hv
  simp only [isCont, Bool.and_eq_true, decide_eq_true_eq] at hc2 hc3
  have hb1 : (b0 = 0xF0 ∧ 0x90 ≤ b1 ∧ b1 < 0xC0) ∨
      (b0 = 0xF4 ∧ 0x80 ≤ b1 ∧ b1 < 0x90) ∨
      (¬b0 = 0xF0 ∧ ¬b0 = 0xF4 ∧ 0x80 ≤ b1 ∧ b1 < 0xC0) := by
    split_ifs at hv with he hd <;>
      simp only [isCont, Bool.and_eq_true, decide_eq_true_eq] at hv <;> tauto
  unfold utf8EncodeChar
  rw [if_neg (by omega), if_neg (by omega), if_neg (by omega)]
  simp only [List.cons.injEq, and_true]
  omega

set_option maxRecDepth 8192 in
/-- Decoding one scalar inverts encoding: the decoded code point re-encodes to exactly
 the consumed bytes. This is the heart of the byte-for-byte relay property. -/
theorem utf8DecodeStep_sound (b0 c : Nat) (rest rest2 : List Nat)
    (h : utf8DecodeStep b0 rest = some (c, rest2)) :
    utf8EncodeChar c ++ rest2 = b0 :: rest := by
  rcases rest with _ | ⟨b1, _ | ⟨b2, _ | ⟨b3, rest4⟩⟩⟩ <;>
    simp only [utf8DecodeStep] at h <;>
    split_ifs at h <;>
    simp only [Option.some.injEq, Prod.mk.injEq, reduceCtorEq] at h <;>
    obtain ⟨rfl, rfl⟩ := h <;>
    first
    | (rw [utf8EncodeChar_one _ (by assumption)]; rfl)
    | (rw [utf8EncodeChar_two _ _ (by omega) (by omega) (by assumption)]; rfl)
    | (rw [utf8EncodeChar_three _ _ _ (by omega) (by omega) (by assumption) (by assumption)]
       rfl)
    | (rw [utf8EncodeChar_four _ _ _ _ (by omega) (by omega) (by assumption) (by assumption)
          (by assumption)]
       rfl)

theorem utf8EncodeChar_length_pos (c : Nat) : 1 ≤ (utf8EncodeChar c).length := by
  unfold utf8EncodeChar
  split_ifs <;> simp

/-- One decoding step consumes at least one byte: the leftover is no longer than the
 bytes after the first. -/
theorem utf8DecodeStep_shrinks (b0 c : Nat) (rest rest2 : List Nat)
    (h : utf8DecodeStep b0 rest = some (c, rest2)) : rest2.length ≤ rest.length := by
  have hs := utf8DecodeStep_sound b0 c rest rest2 h
  have hlen := congrArg List.length hs
  simp only [List.length_append, List.length_cons] at hlen
  have := utf8EncodeChar_length_pos c
  omega

theorem utf8DecodeLoop_sound (fuel : Nat) :
    ∀ (bs cs : List Nat), utf8DecodeLoop fuel bs = some cs → utf8Encode cs = bs := by
  induction fuel with
  | zero =>
    intro bs cs h
    cases bs with
    | nil =>
      simp only [utf8DecodeLoop, Option.some.injEq] at h
      subst h
      rfl
    | cons b0 rest => simp only [utf8DecodeLoop, reduceCtorEq] at h
  | succ f ih =>
    intro bs cs h
    cases bs with
    | nil =>
      simp only [utf8DecodeLoop, Option.some.injEq] at h
      subst h
      rfl
    | cons b0 rest =>
      simp only [utf8DecodeLoop] at h
      cases hstep : utf8DecodeStep b0 rest with
      | none => rw [hstep] at h; cases h
      | some cr =>
        obtain ⟨c, rest2⟩ := cr
        rw [hstep] at h
        simp only [Option.map_eq_some'] at h
        obtain ⟨cs2, hrec, rfl⟩ := h
        rw [utf8Encode_cons, ih rest2 cs2 hrec, utf8DecodeStep_sound b0 c rest rest2 hstep]

/-- Any fuel at least the length of the input decodes identically, so `bs.length` in
 `utf8Decode` is not a semantic bound: the fuel argument is an artifact of the
 termination argument only. -/
theorem utf8DecodeLoop_fuel_irrelevant (fuel : Nat) :
    ∀ (bs : List Nat), bs.length ≤ fuel → utf8DecodeLoop fuel bs = utf8Decode bs := by
  induction fuel using Nat.strong_induction_on with
  | _ fuel ih =>
    intro bs hlen
    cases bs with
    | nil => cases fuel <;> rfl
    | cons b0 rest =>
      cases fuel with
      | zero => simp at hlen
      | succ f =>
        simp only [List.length_cons] at hlen
        unfold utf8Decode
        simp only [List.length_cons, utf8DecodeLoop]
        cases hstep : utf8DecodeStep b0 rest with
        | none => rfl
        | some cr =>
          obtain ⟨c, rest2⟩ := cr
          have hshrink := utf8DecodeStep_shrinks b0 c rest rest2 hstep
          have h1 : utf8DecodeLoop f rest2 = utf8Decode rest2 := by
            apply ih f (by omega) rest2
            omega
          have h2 : utf8DecodeLoop rest.length rest2 = utf8Decode rest2 := by
            exact ih rest.length (by omega) rest2 hshrink
          dsimp only
          rw [h1, h2]

/-- UTF-8 round trip: whenever strict decoding succeeds, re-encoding the decoded code
 points reproduces the original bytes exactly. -/
theorem utf8_decode_encode (bs cs : List Nat) (h : utf8Decode bs = some cs) :
    utf8Encode cs = bs :=
  utf8DecodeLoop_sound bs.length bs cs h

/-- C1: for every request to the proxy path, if the outbound fetch pipeline succeeds
 (the fetch returned a body and `.decode('utf-8')` succeeded), the handler's response
 has status 200, a Content-Type header of `application/atom+xml`, and a wire body equal
 to the upstream body byte-for-byte — the UTF-8 decode followed by the transport's
 re-encode reproduces the bytes exactly. -/
theorem proxy_success_relays_body_verbatim (request : InboundRequest)
    (fetch : OutboundRequest → FetchOutcome) (bodyBytes codepoints : List Nat)
    (hfetch : fetch pagasaRequest = .success bodyBytes)
    (hdecode : utf8Decode bodyBytes = some codepoints) :
    (pagasa_proxy request fetch).1 =
      { body := .textBytes bodyBytes, status := 200,
        headers := some [("Content-Type", "application/atom+xml")] } := by
  have hrt := utf8_decode_encode bodyBytes codepoints hdecode
  simp only [pagasa_proxy, pagasaTry, hfetch, hdecode]
  simp [successResponse, hrt]

theorem proxy_success_relays_body_verbatim_witness :
    (pagasa_proxy { path := "/api/pagasa-proxy", method := "GET", headers := [], query := [] }
        (fun _ => .success [60, 102, 101, 101, 100, 62, 111, 107, 60, 47, 102, 101, 101, 100, 62])).1 =
      { body := .textBytes [60, 102, 101, 101, 100, 62, 111, 107, 60, 47, 102, 101, 101, 100, 62],
        status := 200, headers := some [("Content-Type", "application/atom+xml")] } :=
  proxy_success_relays_body_verbatim _ _ _
    [60, 102, 101, 101, 100, 62, 111, 107, 60, 47, 102, 101, 101, 100, 62] rfl (by decide)

/-- C2: for every request to the proxy path, if the outbound fetch pipeline fails for
 any cause (connection error, timeout, non-success upstream status, or decode error),
 the handler's response is status 500 with body exactly the dict
 `\x7b"error": "Failed to fetch PAGASA data"\x7d`; the response is one constant, so the
 caller-visible message is identical for every failure cause. -/
theorem proxy_failure_uniform_500 (request : InboundRequest)
    (fetch : OutboundRequest → FetchOutcome) (e : ProxyExn)
    (hfail : pagasaTry (fetch pagasaRequest) = .error e) :
    (pagasa_proxy request fetch).1 =
      { body := .jsonObject [("error", "Failed to fetch PAGASA data")], status := 500,
        headers := none } := by
  simp only [pagasa_proxy, hfail]
  rfl

theorem proxy_failure_uniform_500_witness :
    (pagasa_proxy { path := "/api/pagasa-proxy", method := "GET", headers := [], query := [] }
        (fun _ => .connectionError)).1 =
      { body := .jsonObject [("error", "Failed to fetch PAGASA data")], status := 500,
        headers := none } :=
  proxy_failure_uniform_500 _ _ .urlError rfl

/-- C3: for every request to the proxy path, the handler issues exactly one outbound
 GET to the fixed upstream URL carrying the fixed desktop-browser user-agent header,
 whatever the fetch outcome — so no retry occurs. -/
theorem proxy_single_fetch_fixed_request (request : InboundRequest)
    (fetch : OutboundRequest → FetchOutcome) :
    (pagasa_proxy request fetch).2 =
      [{ method := "GET", url := "https://publicalert.pagasa.dost.gov.ph/feeds/",
         headers := [("User-Agent",
           "Mozilla/5.0 (Windows NT 10.0; Win64; x64) AppleWebKit/537.36")] }] := by
  simp only [pagasa_proxy]
  cases pagasaTry (fetch pagasaRequest) <;> rfl

/-- C4: the proxy handler is total over every outcome of the outbound fetch: every run
 either completes the `try` block and returns the success response, or the raised
 failure is caught and mapped to the uniform error response — no third possibility
 exists, so no failure escapes the handler. -/
theorem proxy_total_no_failure_escapes (request : InboundRequest)
    (fetch : OutboundRequest → FetchOutcome) :
    (∃ xmlData, pagasaTry (fetch pagasaRequest) = .ok xmlData ∧
        (pagasa_proxy request fetch).1 = successResponse xmlData) ∨
      ((∃ e, pagasaTry (fetch pagasaRequest) = .error e) ∧
        (pagasa_proxy request fetch).1 = errorResponse) := by
  simp only [pagasa_proxy]
  cases h : pagasaTry (fetch pagasaRequest) with
  | ok x => exact .inl ⟨x, rfl, rfl⟩
  | error e => exact .inr ⟨⟨e, rfl⟩, rfl⟩

/-- C5: every request to the root path, whatever its headers or query string, receives
 status 200, content type `text/html`, and the same fixed document as body. -/
theorem root_response_fixed_html (request : InboundRequest) :
    serve_root request =
      { body := .document mainDocument, status := 200,
        headers := some [("Content-Type", "text/html")] } := rfl

/-- C6: the route table built at startup has exactly two entries — the root path bound
 to the page handler and the proxy path bound to the proxy handler; in the embedding it
 is a constant, matching the absence of any mutation in the source. -/
theorem route_table_exactly_two_entries :
    routeTable = [("/", Handler.mainPage), ("/api/pagasa-proxy", Handler.pagasaProxy)] ∧
      routeTable.length = 2 :=
  ⟨rfl, rfl⟩

/-- C7: the proxy handler's response does not depend on the inbound request: any two
 inbound requests whose outbound fetches have the same outcome receive identical
 responses (and identical outbound traces). -/
theorem proxy_response_independent_of_inbound (r1 r2 : InboundRequest)
    (f1 f2 : OutboundRequest → FetchOutcome)
    (hsame : f1 pagasaRequest = f2 pagasaRequest) :
    pagasa_proxy r1 f1 = pagasa_proxy r2 f2 := by
  simp only [pagasa_proxy, hsame]

theorem proxy_response_independent_of_inbound_witness :
    pagasa_proxy
        { path := "/api/pagasa-proxy", method := "GET",
          headers := [("X-Experiment", "a")], query := [("url", "https://evil.example")] }
        (fun _ => .timeout) =
      pagasa_proxy { path := "/api/pagasa-proxy", method := "GET", headers := [], query := [] }
        (fun _ => .timeout) :=
  proxy_response_independent_of_inbound _ _ _ _ rfl

/-- C8: the page renderer cannot fail: it is a total function that, for every request,
 returns the fixed literal document — there is no branching, no data-dependent
 structure, and no error case in its construction. -/
theorem main_page_construction_total (request : InboundRequest) :
    main_page request = mainDocument := rfl

/-- C9: the proxy handler succeeds only on UTF-8 bodies: whenever the upstream body
 bytes are not strictly decodable as UTF-8, the handler returns the fixed 500 error
 payload instead of relaying the body. -/
theorem proxy_rejects_non_utf8_body (request : InboundRequest)
    (fetch : OutboundRequest → FetchOutcome) (bodyBytes : List Nat)
    (hfetch : fetch pagasaRequest = .success bodyBytes)
    (hbad : utf8Decode bodyBytes = none) :
    (pagasa_proxy request fetch).1 = errorResponse := by
  simp only [pagasa_proxy, pagasaTry, hfetch, hbad]

theorem proxy_rejects_non_utf8_body_witness :
    (pagasa_proxy { path := "/api/pagasa-proxy", method := "GET", headers := [], query := [] }
        (fun _ => .success [255])).1 = errorResponse :=
  proxy_rejects_non_utf8_body _ _ [255] rfl (by decide)

/-- C10: on the failure path the handler returns a 2-tuple — body and status 500 with
 no headers component at all — while on the success path it returns a 3-tuple with an
 explicit Content-Type header; the error response declares no content type. -/
theorem proxy_headers_shape (request : InboundRequest)
    (fetch : OutboundRequest → FetchOutcome) :
    ((∃ e, pagasaTry (fetch pagasaRequest) = .error e) →
        (pagasa_proxy request fetch).1.headers = none ∧
          (pagasa_proxy request fetch).1.status = 500) ∧
      (∀ xmlData, pagasaTry (fetch pagasaRequest) = .ok xmlData →
        (pagasa_proxy request fetch).1.headers =
            some [("Content-Type", "application/atom+xml")] ∧
          (pagasa_proxy request fetch).1.status = 200) := by
  constructor
  · rintro ⟨e, he⟩
    simp only [pagasa_proxy, he]
    exact ⟨rfl, rfl⟩
  · intro x hx
    simp only [pagasa_proxy, hx]
    exact ⟨rfl, rfl⟩

theorem proxy_headers_shape_witness :
    (pagasa_proxy { path := "/api/pagasa-proxy", method := "GET", headers := [], query := [] }
          (fun _ => .httpError 503)).1.headers = none ∧
      (pagasa_proxy { path := "/api/pagasa-proxy", method := "GET", headers := [], query := [] }
          (fun _ => .httpError 503)).1.status = 500 :=
  (proxy_headers_shape { path := "/api/pagasa-proxy", method := "GET", headers := [], query := [] }
      (fun _ => .httpError 503)).1 ⟨.httpStatusError 503, rfl⟩
